import Mathlib

/-
Verification of the DG-LAB V3-socket to V2-BLE bridge.

The repository keeps several generations of the same converter logic.  The
namespaces below keep them apart:

* `V103R`     embeds src/DG-LAB-V3-SOCKET-To-V2-BLE-V1.0.3R.py, the current
              main program (the V1.0.2R and the two older top-level scripts
              contain byte-identical copies of the functions embedded here);
* `NewCode`   embeds src/New-Code/src/core/protocol.py;
* `Converter` embeds src/src/core/protocol/converter.py.

Conventions of the shallow embedding:

* Python machine integers are modelled as `Nat` or `Int`; bitwise operations
  on provably in-range values are written arithmetically, using the exact
  identities  n AND (2^k - 1) = n % 2^k,  n >> k = n / 2^k,  n << k = n * 2^k,
  and  a OR b = a + b  whenever the set bit positions of a and b are disjoint
  (each such use is justified at the definition).
* Python float expressions of the shape `int(c * v ** 0.5)` with rational c
  are modelled by the exact real value `floor (c * sqrt v)`, rewritten as an
  integer square root (see `intSqrt`).  For every input in the domains the
  source can reach, the exact value and the IEEE-double value coincide: the
  exact quantity is never closer than 1/200 to an integer it does not reach,
  which is far above the rounding error of the double computation.
* Code that raises (the Python `bytes` range check) returns `Option`.
-/

/-- Bounded linear search for the integer square root: `sqrtAux n fuel c`
walks c upward while the square of the successor still fits below `n`. -/
def sqrtAux (n : Nat) : Nat → Nat → Nat
  | 0, c => c
  | fuel + 1, c => if (c + 1) * (c + 1) ≤ n then sqrtAux n fuel (c + 1) else c

/-- Integer square root, `intSqrt n = floor (sqrt n)`; kernel-reducible
(structural recursion on the fuel), see `sqrtAux_correct` below. -/
def intSqrt (n : Nat) : Nat := sqrtAux n n 0

namespace NewCode

/-- Embeds `ProtocolConverter.encode_pwm_ab2`, src/New-Code/src/core/protocol.py
lines 45-69.  Source: `a_val = min(int(a * 7), 2047)`, `b_val` likewise;
`byte1 = b_val & 0xFF`; `byte2 = ((b_val >> 8) & 0x07) | ((a_val & 0x1F) << 3)`,
an OR of disjoint bit ranges (bits 0-2 versus bits 3-7), hence written `+`;
`byte3 = (a_val >> 5) & 0xFF`. -/
def encode_pwm_ab2 (a b : Nat) : List Nat :=
  let a_val := min (a * 7) 2047
  let b_val := min (b * 7) 2047
  [b_val % 256, b_val / 256 % 8 + a_val % 32 * 8, a_val / 32 % 256]

/-- Embeds `ProtocolConverter.encode_pwm_channel`, src/New-Code/src/core/protocol.py
lines 71-97.  Source clamps `x = max(1, min(31, x))`, `y = max(1, min(1023, y))`,
`z = max(0, min(31, z))`, then computes
`byte1 = (x & 0x1F) | ((y & 0x1F) << 5)` (disjoint bits 0-4 versus 5-9, so `+`) and
`byte2 = ((y >> 5) & 0x1F) | ((z & 0x1F) << 5)` (same shape), `byte3 = 0`, and ends
with `bytes([byte1, byte2, byte3])`.  The Python `bytes` constructor demands every
entry in range(0, 256) and raises `ValueError` otherwise; that raising outcome is
modelled as `none`. -/
def encode_pwm_channel (x y z : Int) : Option (List Nat) :=
  let xc := (max 1 (min 31 x)).toNat
  let yc := (max 1 (min 1023 y)).toNat
  let zc := (max 0 (min 31 z)).toNat
  let byte1 := xc % 32 + yc % 32 * 32
  let byte2 := yc / 32 % 32 + zc % 32 * 32
  let byte3 := 0
  if byte1 < 256 ∧ byte2 < 256 ∧ byte3 < 256 then some [byte1, byte2, byte3] else none

end NewCode

/-- Specification-side layout of `encodeStrengthPair`, written from the words of
the specification: each UI-scale value expands to `actual = min (ui * 7) 2047`;
byte1 is the low 8 bits of the B actual value; byte2 is bits 10-8 of the B actual
value joined with the low 5 bits of the A actual value shifted left by 3; byte3 is
bits 10-5 of the A actual value. -/
def encodeStrengthPair (a b : Nat) : List Nat :=
  let aActual := min (a * 7) 2047
  let bActual := min (b * 7) 2047
  [bActual % 256, bActual / 256 % 8 + aActual % 32 * 8, aActual / 32 % 64]

/-- Round to nearest (ties upward) of the fraction num / den, the reading of
`round` used by the specification sentence about `intensityToZ`. -/
def roundNearest (num den : Nat) : Nat := (2 * num + den) / (2 * den)

namespace Converter

/-- Embeds `ProtocolConverter.v3_intensity_to_v2_z`, src/src/core/protocol/converter.py
lines 90-104.  Source clamps `intensity = max(0, min(100, intensity))` and returns
`int(intensity * 31 / 100)`: truncation of the float quotient, which for the clamped
nonnegative value is exactly floor division by 100 (the quotient is never within
1/100 of an integer it does not attain). -/
def v3_intensity_to_v2_z (intensity : Int) : Nat :=
  (max 0 (min 100 intensity)).toNat * 31 / 100

end Converter

namespace V103R

/-- Embeds `MainWindow.v3_freq_to_v2`, src/DG-LAB-V3-SOCKET-To-V2-BLE-V1.0.3R.py
lines 1129-1141.  Branches of the source:
for 10 ≤ f ≤ 100, `x = max(1, int(f ** 0.5 * 0.8))` and `y = 1000 // f - x`;
for 101 ≤ f ≤ 600, `scaled = (f - 100) / 5 + 100`, `x = int(scaled ** 0.5 * 1.2)`
and `y = max(1, 1000 // f - x)`;
for 601 ≤ f ≤ 1000, `x = int(f ** 0.5 * 0.5)` and `y = max(1, 1000 // f - x)`;
otherwise `x, y = 1, 9`; finally
`return max(1, min(31, x)), max(1, min(1023, y))`.
The float floors are modelled exactly:
`floor (0.8 * sqrt f) = intSqrt (16 * f) / 5`,
`floor (1.2 * sqrt ((f + 400) / 5)) = intSqrt (4500 * (f + 400)) / 125`,
`floor (0.5 * sqrt f) = intSqrt f / 2`
(rewriting c * sqrt v as sqrt (c ^ 2 * v) and dividing out the denominator);
these agree with the IEEE-double evaluation on the whole branch domains. -/
def v3_freq_to_v2 (freq_input : Int) : Int × Int :=
  let xy : Int × Int :=
    if 10 ≤ freq_input ∧ freq_input ≤ 100 then
      let f := freq_input.toNat
      let x : Nat := max 1 (intSqrt (16 * f) / 5)
      ((x : Int), ((1000 / f : Nat) : Int) - (x : Int))
    else if 101 ≤ freq_input ∧ freq_input ≤ 600 then
      let f := freq_input.toNat
      let x : Nat := intSqrt (4500 * (f + 400)) / 125
      ((x : Int), max 1 (((1000 / f : Nat) : Int) - (x : Int)))
    else if 601 ≤ freq_input ∧ freq_input ≤ 1000 then
      let f := freq_input.toNat
      let x : Nat := intSqrt f / 2
      ((x : Int), max 1 (((1000 / f : Nat) : Int) - (x : Int)))
    else (1, 9)
  (max 1 (min 31 xy.1), max 1 (min 1023 xy.2))

/-- Embeds `MainWindow.v3_intensity_to_v2_z`, src/DG-LAB-V3-SOCKET-To-V2-BLE-V1.0.3R.py
lines 1143-1144: `min(31, int(20 + (15 * (intensity / 100))))`, whose exact value is
`min 31 (20 + 15 * intensity / 100)` (the float product stays on the same side of
every integer as the exact value for the byte-sized inputs the source feeds it). -/
def v3_intensity_to_v2_z (intensity : Nat) : Nat :=
  min 31 (20 + 15 * intensity / 100)

/-- Embeds `MainWindow.encode_pwm_ab2`, src/DG-LAB-V3-SOCKET-To-V2-BLE-V1.0.3R.py
lines 1146-1149.  Source: `a_val = min(int(a * 2047 / 200), 2047)` (for a ≥ 0 the
float truncation is floor division, never within 1/200 of a missed integer),
`b_val` likewise, and the frame is
`bytes([(a_val >> 3) & 0xFF, ((a_val & 0x07) << 5) | ((b_val >> 6) & 0x1F),
(b_val & 0x3F) << 2])`; the OR joins bits 5-7 with bits 0-4, so it is `+`. -/
def encode_pwm_ab2 (a b : Nat) : List Nat :=
  let a_val := min (a * 2047 / 200) 2047
  let b_val := min (b * 2047 / 200) 2047
  [a_val / 8 % 256, a_val % 8 * 32 + b_val / 64 % 32, b_val % 64 * 4]

/-- Embeds `MainWindow.encode_pwm_channel`, src/DG-LAB-V3-SOCKET-To-V2-BLE-V1.0.3R.py
lines 1151-1152: `struct.pack('<I', (z & 0x1F) << 19 | (y & 0x3FF) << 5 | (x & 0x1F))[:3]`.
The three ORed fields occupy the disjoint bit ranges 19-23, 5-14 and 0-4, so the
packed word is the sum below, and the 3-byte little-endian truncation keeps the
low three bytes of the word. -/
def encode_pwm_channel (x y z : Nat) : List Nat :=
  let w := z % 32 * 524288 + y % 1024 * 32 + x % 32
  [w % 256, w / 256 % 256, w / 65536 % 256]

/-- One entry of a `wave_queues` deque of the V1.0.3R program.  The source pushes
both parameter triples `(x, y, z)` (consumed by `process_wave_queues`) and bare
intensity numbers (pushed for the waveform display) into the same deque, so an
entry is one or the other. -/
inductive WaveItem where
  | sample (x y z : Nat)
  | display (v : Int)
deriving DecidableEq

/-- The strength-related fields of `MainWindow`: `current_strength` and
`max_strength` for both channels. -/
structure StrengthState where
  currentA : Int
  currentB : Int
  maxA : Int
  maxB : Int
deriving DecidableEq

/-- The application state touched by the socket message handlers: the strength
fields plus the two `wave_queues` deques. -/
structure AppState where
  strength : StrengthState
  queueA : List WaveItem
  queueB : List WaveItem
deriving DecidableEq

/-- Append on a `deque(maxlen=100)`: when the deque is full the oldest entry is
dropped silently. -/
def deque_append (q : List WaveItem) (item : WaveItem) : List WaveItem :=
  if q.length < 100 then q ++ [item] else q.tail ++ [item]

/-- Outcome of `MainWindow.handle_strength_change`: the successor state, the
frame written to the strength characteristic (none when nothing is written), the
over-limit warning flag, and the strength value echoed to the server (none when
the value did not change or the command was dropped). -/
structure HscResult where
  state : AppState
  sent : Option (List Nat)
  warned : Bool
  echoed : Option Int
deriving DecidableEq

/-- Embeds `MainWindow.handle_strength_change`, src/DG-LAB-V3-SOCKET-To-V2-BLE-V1.0.3R.py
lines 1284-1318.  `ch` is channel A exactly when `channel_num == 1`.  Mode 0
proposes `current - value`, mode 1 proposes `current + value`, mode 2 proposes
`value`, and any other mode returns at once.  A proposal above the channel
ceiling is dropped with a warning (`channel_over_limit` log) and no state
change; otherwise the proposal is clamped by `max(0, min(new, max_strength))`,
stored, encoded with `encode_pwm_ab2` over both current strengths and written
out, the new value is appended to the channel deque (the display push), and the
value is echoed to the server when it differs from the old one.  The body can
raise nothing its `try` would catch: every dictionary access is on a key built
by the function itself. -/
def handle_strength_change (s : AppState) (channel_num mode value : Int) : HscResult :=
  let current := if channel_num = 1 then s.strength.currentA else s.strength.currentB
  let maxS := if channel_num = 1 then s.strength.maxA else s.strength.maxB
  if mode = 0 ∨ mode = 1 ∨ mode = 2 then
    let new := if mode = 0 then current - value else if mode = 1 then current + value else value
    if maxS < new then { state := s, sent := none, warned := true, echoed := none }
    else
      let new2 := max 0 (min new maxS)
      let st := if channel_num = 1 then { s.strength with currentA := new2 }
                else { s.strength with currentB := new2 }
      let frame := encode_pwm_ab2 st.currentA.toNat st.currentB.toNat
      let s2 := if channel_num = 1 then
                  { s with strength := st, queueA := deque_append s.queueA (WaveItem.display new2) }
                else
                  { s with strength := st, queueB := deque_append s.queueB (WaveItem.display new2) }
      { state := s2, sent := some frame, warned := false,
        echoed := if new2 ≠ current then some new2 else none }
  else { state := s, sent := none, warned := false, echoed := none }

/-- Embeds `MainWindow.update_max_strength`, src/DG-LAB-V3-SOCKET-To-V2-BLE-V1.0.3R.py
lines 1239-1279, at the level of the parsed input values: when either value
falls outside 0..200 the handler warns and restores the old text, leaving the
state alone; otherwise it stores both new ceilings.  The current strengths are
not touched on either path (the remainder of the source body only refreshes the
plot range, the configuration file and the status labels). -/
def update_max_strength (st : StrengthState) (a_value b_value : Int) : StrengthState :=
  if a_value < 0 ∨ 200 < a_value ∨ b_value < 0 ∨ 200 < b_value then st
  else { st with maxA := a_value, maxB := b_value }

/-- Embeds one channel of one iteration of `MainWindow.process_wave_queues`,
src/DG-LAB-V3-SOCKET-To-V2-BLE-V1.0.3R.py lines 1154-1165: when the deque holds
at least 4 entries, exactly 4 are popped from the left, the integer-truncated
means of their three components are encoded with `encode_pwm_channel` and the
frame is written to the waveform characteristic of the channel; otherwise the
tick leaves the deque alone and writes nothing.  Popping an entry that is a bare
display number would evaluate `p[0]` on an int and raise a `TypeError`; that
outcome is the outer `none`. -/
def process_wave_tick (q : List WaveItem) : Option (Option (List Nat) × List WaveItem) :=
  if 4 ≤ q.length then
    match q with
    | WaveItem.sample x0 y0 z0 :: WaveItem.sample x1 y1 z1 ::
      WaveItem.sample x2 y2 z2 :: WaveItem.sample x3 y3 z3 :: rest =>
        let params : List (Nat × Nat × Nat) := [(x0, y0, z0), (x1, y1, z1), (x2, y2, z2), (x3, y3, z3)]
        some (some (encode_pwm_channel
            ((params.map fun p => p.1).sum / 4)
            ((params.map fun p => p.2.1).sum / 4)
            ((params.map fun p => p.2.2).sum / 4)), rest)
    | _ => none
  else some (none, q)

/-- Embeds the `pulse-` branch of `MainWindow.handle_socket_message`, lines
1221-1230: the first 100 wave elements are decoded to a frequency byte and an
intensity byte; each pair is converted through `v3_freq_to_v2` and
`v3_intensity_to_v2_z`, the resulting triple is appended to the channel deque,
and then the raw intensity is appended to the same deque for the display. -/
def handle_pulse (s : AppState) (channelA : Bool) (waves : List (Nat × Nat)) : AppState :=
  let step := fun (q : List WaveItem) (w : Nat × Nat) =>
    let xy := v3_freq_to_v2 (w.1 : Int)
    let z := v3_intensity_to_v2_z w.2
    deque_append (deque_append q (WaveItem.sample xy.1.toNat xy.2.toNat z)) (WaveItem.display (w.2 : Int))
  if channelA then { s with queueA := (waves.take 100).foldl step s.queueA }
  else { s with queueB := (waves.take 100).foldl step s.queueB }

/-- A parsed inbound socket envelope as `MainWindow.handle_socket_message` sees
it: the three command shapes carried by a type `msg` envelope, and the other
envelope types that can arrive (`break`, `bind`, `heartbeat`, `error`). -/
inductive Envelope where
  | msgStrength (channel mode value : Int)
  | msgPulse (channelA : Bool) (waves : List (Nat × Nat))
  | msgClear (oneSelected : Bool)
  | breakEnvelope
  | bindEnvelope
  | heartbeatEnvelope
  | errorEnvelope
deriving DecidableEq

/-- Embeds `MainWindow.handle_socket_message`, src/DG-LAB-V3-SOCKET-To-V2-BLE-V1.0.3R.py
lines 1210-1237.  The body starts with `if msg["type"] != "msg": return`, so every
envelope that is not of type `msg` (in particular a `break` envelope) leaves the
state untouched.  A `msg` envelope dispatches on its command prefix: `strength-`
runs `handle_strength_change`, `pulse-` runs the enqueue loop, and `clear-` resets
the deque of channel A exactly when the suffix is the string 1 and of channel B
otherwise. -/
def handle_socket_message (s : AppState) (e : Envelope) : AppState :=
  match e with
  | Envelope.msgStrength c m v => (handle_strength_change s c m v).state
  | Envelope.msgPulse chA ws => handle_pulse s chA ws
  | Envelope.msgClear one => if one then { s with queueA := [] } else { s with queueB := [] }
  | _ => s

end V103R

/-- The bounded search of `sqrtAux` returns the integer square root whenever the
fuel suffices: from a start value whose square already fits, and enough fuel to
reach past the root, the result squares below the argument while its successor
squares above it. -/
theorem sqrtAux_correct (n : Nat) (fuel : Nat) :
    ∀ c, c * c ≤ n → n < (c + fuel + 1) * (c + fuel + 1) →
      sqrtAux n fuel c * sqrtAux n fuel c ≤ n ∧
      n < (sqrtAux n fuel c + 1) * (sqrtAux n fuel c + 1) := by
  induction fuel with
  | zero =>
    intro c h1 h2
    refine ⟨h1, ?_⟩
    simpa using h2
  | succ fuel ih =>
    intro c h1 h2
    unfold sqrtAux
    split_ifs with h
    · refine ih (c + 1) h ?_
      have he : c + 1 + fuel + 1 = c + (fuel + 1) + 1 := by ring
      rw [he]
      exact h2
    · exact ⟨h1, Nat.lt_of_not_le h⟩

/-- The integer square root function is correct: `intSqrt n` is the largest
natural number whose square does not exceed `n`. -/
theorem intSqrt_correct (n : Nat) :
    intSqrt n * intSqrt n ≤ n ∧ n < (intSqrt n + 1) * (intSqrt n + 1) := by
  refine sqrtAux_correct n n 0 (by simp) ?_
  have h1 : n + 1 ≤ (n + 1) * (n + 1) := Nat.le_mul_of_pos_left (n + 1) (by omega)
  calc n < n + 1 := Nat.lt_succ_self n
    _ ≤ (n + 1) * (n + 1) := h1
    _ = (0 + n + 1) * (0 + n + 1) := by ring
namespace V103R

/-- Claim C7, counterexample: `frequencyToXY` applied to 100 does not return
x = 8 and y = 117; the second component the code computes is 2 (the first
branch takes x = 8 and y = 1000 / 100 - 8 = 2). -/
theorem v3_freq_to_v2_at_100_cex : v3_freq_to_v2 100 ≠ (8, 117) := by decide

/-- Claim C7, amended: `frequencyToXY` applied to 100 returns x = 8 and y = 2,
both within the field ranges x in 1..31 and y in 1..1023. -/
theorem v3_freq_to_v2_at_100 :
    v3_freq_to_v2 100 = (8, 2) ∧
    (1 : Int) ≤ 8 ∧ (8 : Int) ≤ 31 ∧ (1 : Int) ≤ 2 ∧ (2 : Int) ≤ 1023 := by decide

/-- Claim C6, counterexample: an input above the declared range is not mapped to
the result of the clamped input: 1001 takes the fixed fallback branch and yields
(1, 9), while the clamped input 1000 yields (15, 1). -/
theorem v3_freq_to_v2_fallback_cex :
    v3_freq_to_v2 1001 = (1, 9) ∧ v3_freq_to_v2 1000 = (15, 1) ∧
    v3_freq_to_v2 1001 ≠ v3_freq_to_v2 1000 := by decide

/-- Claim C6, amended: for every integer input, `frequencyToXY` returns
x in 1..31 and y in 1..1023, and inputs outside 10..1000 are not rejected but
take the fixed fallback pair (1, 9) rather than the clamped computation. -/
theorem v3_freq_to_v2_bounds_and_fallback (f : Int) :
    (1 ≤ (v3_freq_to_v2 f).1 ∧ (v3_freq_to_v2 f).1 ≤ 31 ∧
     1 ≤ (v3_freq_to_v2 f).2 ∧ (v3_freq_to_v2 f).2 ≤ 1023) ∧
    ((f < 10 ∨ 1000 < f) → v3_freq_to_v2 f = (1, 9)) := by
  constructor
  · obtain ⟨x, y, h⟩ : ∃ x y : Int, v3_freq_to_v2 f = (max 1 (min 31 x), max 1 (min 1023 y)) :=
      ⟨_, _, rfl⟩
    rw [h]
    refine ⟨?_, ?_, ?_, ?_⟩ <;> dsimp only <;> omega
  · intro hf
    have h1 : ¬(10 ≤ f ∧ f ≤ 100) := by omega
    have h2 : ¬(101 ≤ f ∧ f ≤ 600) := by omega
    have h3 : ¬(601 ≤ f ∧ f ≤ 1000) := by omega
    simp only [v3_freq_to_v2]
    rw [if_neg h1, if_neg h2, if_neg h3]
    decide

/-- Claim C6 witness: at the concrete out-of-range input 1001 the amended
statement instantiates to the fallback pair. -/
theorem v3_freq_to_v2_bounds_and_fallback_witness :
    ((1001 : Int) < 10 ∨ (1000 : Int) < 1001) ∧ v3_freq_to_v2 1001 = (1, 9) :=
  ⟨by decide, (v3_freq_to_v2_bounds_and_fallback 1001).2 (by decide)⟩

end V103R

/-- Claim C10: evaluating the New-Code `encode_pwm_channel` at the in-range
arguments x = 1, y = 8, z = 0 reaches the raising branch: the first packed byte
is 1 + 8 * 32 = 257, outside range(0, 256), so `bytes` raises `ValueError`
instead of returning a 3-byte frame. -/
theorem encode_pwm_channel_raises_in_range :
    NewCode.encode_pwm_channel 1 8 0 = none ∧
    (1 : Int) ≤ 1 ∧ (1 : Int) ≤ 31 ∧ (1 : Int) ≤ 8 ∧ (8 : Int) ≤ 1023 := by decide

/-- Claim C8, counterexample: at intensity 5 the converter returns the
truncated value 1, while round-to-nearest of 5 * 31 / 100 = 1.55 is 2. -/
theorem v3_intensity_truncation_cex :
    Converter.v3_intensity_to_v2_z 5 = 1 ∧ roundNearest (5 * 31) 100 = 2 ∧
    Converter.v3_intensity_to_v2_z 5 ≠ roundNearest (5 * 31) 100 := by decide

/-- Claim C8, amended: for every intensity in 0..100 the converter returns the
floor of intensity * 31 / 100 (truncating division, not rounding to nearest),
and the result lies in 0..31. -/
theorem v3_intensity_floor_bounds (i : Int) (h0 : 0 ≤ i) (h1 : i ≤ 100) :
    Converter.v3_intensity_to_v2_z i = i.toNat * 31 / 100 ∧
    Converter.v3_intensity_to_v2_z i ≤ 31 := by
  unfold Converter.v3_intensity_to_v2_z
  have hm : max 0 (min 100 i) = i := by omega
  rw [hm]
  constructor
  · rfl
  · have hi : i.toNat ≤ 100 := by omega
    omega

/-- Claim C8 witness: the amended statement instantiated at intensity 100,
where the converter attains the top value 31. -/
theorem v3_intensity_floor_bounds_witness :
    (0 : Int) ≤ 100 ∧ (100 : Int) ≤ 100 ∧
    (Converter.v3_intensity_to_v2_z 100 = (100 : Int).toNat * 31 / 100 ∧
     Converter.v3_intensity_to_v2_z 100 ≤ 31) :=
  ⟨by decide, by decide, v3_intensity_floor_bounds 100 (by decide) (by decide)⟩

set_option maxHeartbeats 1000000 in
/-- Claim C3: on the whole UI domain 0..200 for both channels, the New-Code
strength-pair encoder produces exactly the specified 3-byte layout: byte1 the
low 8 bits of the B actual value, byte2 bits 10-8 of B joined with the low 5
bits of A shifted left by 3, byte3 bits 10-5 of A, with actual = min (ui * 7) 2047. -/
theorem encode_pwm_ab2_matches_layout (a b : Nat) (ha : a ≤ 200) (hb : b ≤ 200) :
    NewCode.encode_pwm_ab2 a b = encodeStrengthPair a b := by
  have ha7 : min (a * 7) 2047 = a * 7 := by omega
  have hb7 : min (b * 7) 2047 = b * 7 := by omega
  have e3 : a * 7 / 32 % 256 = a * 7 / 32 := Nat.mod_eq_of_lt (by omega)
  have e4 : a * 7 / 32 % 64 = a * 7 / 32 := Nat.mod_eq_of_lt (by omega)
  simp only [NewCode.encode_pwm_ab2, encodeStrengthPair, ha7, hb7, e3, e4, List.cons.injEq,
    and_true]

/-- Claim C3 witness: the layout equality instantiated at the concrete pair
(10, 20). -/
theorem encode_pwm_ab2_matches_layout_witness :
    10 ≤ 200 ∧ 20 ≤ 200 ∧ NewCode.encode_pwm_ab2 10 20 = encodeStrengthPair 10 20 :=
  ⟨by decide, by decide, encode_pwm_ab2_matches_layout 10 20 (by decide) (by decide)⟩

set_option maxHeartbeats 2000000 in
/-- Claim C4: the strength-pair encoding is injective on 0..200 x 0..200, which
is the stated equivalent of the decode-after-encode round trip: two pairs with
the same 3-byte frame are equal. -/
theorem encode_pwm_ab2_injective (a b a2 b2 : Nat) (ha : a ≤ 200) (hb : b ≤ 200)
    (ha2 : a2 ≤ 200) (hb2 : b2 ≤ 200)
    (h : NewCode.encode_pwm_ab2 a b = NewCode.encode_pwm_ab2 a2 b2) :
    a = a2 ∧ b = b2 := by
  have ha7 : min (a * 7) 2047 = a * 7 := by omega
  have hb7 : min (b * 7) 2047 = b * 7 := by omega
  have ha27 : min (a2 * 7) 2047 = a2 * 7 := by omega
  have hb27 : min (b2 * 7) 2047 = b2 * 7 := by omega
  have e1 : b * 7 / 256 % 8 = b * 7 / 256 := Nat.mod_eq_of_lt (by omega)
  have e2 : b2 * 7 / 256 % 8 = b2 * 7 / 256 := Nat.mod_eq_of_lt (by omega)
  have e3 : a * 7 / 32 % 256 = a * 7 / 32 := Nat.mod_eq_of_lt (by omega)
  have e4 : a2 * 7 / 32 % 256 = a2 * 7 / 32 := Nat.mod_eq_of_lt (by omega)
  simp only [NewCode.encode_pwm_ab2, ha7, hb7, ha27, hb27, e1, e2, e3, e4,
    List.cons.injEq, and_true] at h
  omega

/-- Claim C4 witness: injectivity applied at the concrete frames of the pair
(10, 20) against itself. -/
theorem encode_pwm_ab2_injective_witness :
    10 ≤ 200 ∧ 20 ≤ 200 ∧ (10 = 10 ∧ 20 = 20) :=
  ⟨by decide, by decide,
    encode_pwm_ab2_injective 10 20 10 20 (by decide) (by decide) (by decide) (by decide) rfl⟩

namespace V103R

/-- Claim C2: an INCREASE command whose candidate current + value exceeds the
channel ceiling is a rejected non-fatal no-op of `handle_strength_change`: the
state (both strengths and both deques) is unchanged, nothing is written to the
peripheral, no echo is sent, and the over-limit warning is emitted. -/
theorem increase_over_limit_is_rejected_noop (s : AppState) (channel_num value : Int)
    (h : (if channel_num = 1 then s.strength.maxA else s.strength.maxB) <
         (if channel_num = 1 then s.strength.currentA else s.strength.currentB) + value) :
    handle_strength_change s channel_num 1 value =
      { state := s, sent := none, warned := true, echoed := none } := by
  simp only [handle_strength_change]
  norm_num
  exact h

/-- Claim C2 witness: the scenario of the specification, channel A at current
strength 90 with ceiling 100 receiving an increase by 30: the command is
rejected and the state keeps the value 90. -/
theorem increase_over_limit_is_rejected_noop_witness :
    ((if (1 : Int) = 1 then (100 : Int) else 100) < (if (1 : Int) = 1 then (90 : Int) else 0) + 30) ∧
    handle_strength_change ⟨⟨90, 0, 100, 100⟩, [], []⟩ 1 1 30 =
      { state := ⟨⟨90, 0, 100, 100⟩, [], []⟩, sent := none, warned := true, echoed := none } :=
  ⟨by decide, increase_over_limit_is_rejected_noop ⟨⟨90, 0, 100, 100⟩, [], []⟩ 1 30 (by decide)⟩

/-- Claim C1: the strength invariant is violated through `update_max_strength`.
Starting from current strength 0 and ceiling 200 on channel A, the accepted SET
command to 100 keeps the invariant, but lowering both ceilings to 50 leaves the
current strength at 100, above the new ceiling: the V1.0.3R handler stores the
new ceilings without clamping the current strengths down. -/
theorem update_max_strength_invariant_violation :
    ((handle_strength_change ⟨⟨0, 0, 200, 200⟩, [], []⟩ 1 2 100).state.strength.currentA = 100) ∧
    (update_max_strength (handle_strength_change ⟨⟨0, 0, 200, 200⟩, [], []⟩ 1 2 100).state.strength
        50 50).currentA = 100 ∧
    (update_max_strength (handle_strength_change ⟨⟨0, 0, 200, 200⟩, [], []⟩ 1 2 100).state.strength
        50 50).maxA = 50 ∧
    ¬((update_max_strength (handle_strength_change ⟨⟨0, 0, 200, 200⟩, [], []⟩ 1 2 100).state.strength
        50 50).currentA ≤
      (update_max_strength (handle_strength_change ⟨⟨0, 0, 200, 200⟩, [], []⟩ 1 2 100).state.strength
        50 50).maxA) := by decide

/-- Claim C9, counterexample: a break envelope received in a session whose
channel A holds strength 50 and one queued sample leaves both untouched; the
strength is not reset to zero and the queue is not emptied. -/
theorem break_envelope_cex :
    (handle_socket_message ⟨⟨50, 30, 100, 100⟩, [WaveItem.sample 2 98 20], []⟩
        Envelope.breakEnvelope).strength.currentA = 50 ∧
    (handle_socket_message ⟨⟨50, 30, 100, 100⟩, [WaveItem.sample 2 98 20], []⟩
        Envelope.breakEnvelope).queueA = [WaveItem.sample 2 98 20] := by decide

/-- Claim C9, amended: in the V1.0.3R handler an inbound envelope whose type is
break (like every non-msg type) is ignored: the whole session state, both
current strengths and both waveform queues included, is left unchanged. -/
theorem break_envelope_noop (s : AppState) :
    handle_socket_message s Envelope.breakEnvelope = s := rfl

/-- Supporting lemma (not a claim): restricted to queues consed purely of
parameter samples, the type its own popping code expects, the tick flushes
exactly at depth 4 or more, dequeues exactly the first 4 and emits one frame
encoding the integer-truncated mean of their x, y and z, and leaves a shorter
queue unchanged without sending.  The queues the running program builds are
never of this pure shape once they reach depth 4: see the crash theorem below
for the bug this lemma isolates. -/
theorem process_wave_tick_flush (ps : List (Nat × Nat × Nat)) :
    (4 ≤ ps.length →
      process_wave_tick (ps.map fun p => WaveItem.sample p.1 p.2.1 p.2.2) =
        some (some (encode_pwm_channel
            (((ps.take 4).map fun p => p.1).sum / 4)
            (((ps.take 4).map fun p => p.2.1).sum / 4)
            (((ps.take 4).map fun p => p.2.2).sum / 4)),
          (ps.drop 4).map fun p => WaveItem.sample p.1 p.2.1 p.2.2)) ∧
    (ps.length < 4 →
      process_wave_tick (ps.map fun p => WaveItem.sample p.1 p.2.1 p.2.2) =
        some (none, ps.map fun p => WaveItem.sample p.1 p.2.1 p.2.2)) := by
  constructor
  · intro h
    match ps, h with
    | (x0, y0, z0) :: (x1, y1, z1) :: (x2, y2, z2) :: (x3, y3, z3) :: rest, _ =>
      unfold process_wave_tick
      rw [if_pos (by simp only [List.length_map, List.length_cons]; omega)]
      rfl
  · intro h
    have hn : ¬ 4 ≤ (ps.map fun p => WaveItem.sample p.1 p.2.1 p.2.2).length := by
      simp only [List.length_map]
      omega
    unfold process_wave_tick
    rw [if_neg hn]

/-- Concrete instantiation of the supporting lemma: the flush applied to a
5-sample queue, and the no-op applied to the empty queue. -/
theorem process_wave_tick_flush_witness :
    (4 ≤ ([(1, 2, 3), (5, 6, 7), (9, 10, 11), (13, 14, 15), (17, 18, 19)] :
        List (Nat × Nat × Nat)).length ∧
      process_wave_tick
          (([(1, 2, 3), (5, 6, 7), (9, 10, 11), (13, 14, 15), (17, 18, 19)] :
            List (Nat × Nat × Nat)).map fun p => WaveItem.sample p.1 p.2.1 p.2.2) =
        some (some (encode_pwm_channel
            (((([(1, 2, 3), (5, 6, 7), (9, 10, 11), (13, 14, 15), (17, 18, 19)] :
              List (Nat × Nat × Nat)).take 4).map fun p => p.1).sum / 4)
            (((([(1, 2, 3), (5, 6, 7), (9, 10, 11), (13, 14, 15), (17, 18, 19)] :
              List (Nat × Nat × Nat)).take 4).map fun p => p.2.1).sum / 4)
            (((([(1, 2, 3), (5, 6, 7), (9, 10, 11), (13, 14, 15), (17, 18, 19)] :
              List (Nat × Nat × Nat)).take 4).map fun p => p.2.2).sum / 4)),
          (([(1, 2, 3), (5, 6, 7), (9, 10, 11), (13, 14, 15), (17, 18, 19)] :
            List (Nat × Nat × Nat)).drop 4).map fun p => WaveItem.sample p.1 p.2.1 p.2.2)) ∧
    (([] : List (Nat × Nat × Nat)).length < 4 ∧
      process_wave_tick (([] : List (Nat × Nat × Nat)).map fun p => WaveItem.sample p.1 p.2.1 p.2.2) =
        some (none, ([] : List (Nat × Nat × Nat)).map fun p => WaveItem.sample p.1 p.2.1 p.2.2)) :=
  ⟨⟨by decide,
    (process_wave_tick_flush [(1, 2, 3), (5, 6, 7), (9, 10, 11), (13, 14, 15), (17, 18, 19)]).1
      (by decide)⟩,
   ⟨by decide, (process_wave_tick_flush []).2 (by decide)⟩⟩

end V103R

namespace V103R

/-- Claim C5: the wave deque the program actually builds defeats the flush.
The pulse branch of `handle_socket_message` pushes, for every wave element, the
parameter sample and then the bare intensity number (the display push, line
1230) into the same deque, and `handle_strength_change` pushes further bare
numbers (line 1305), so every deque that reaches depth 4 interleaves samples
with plain ints.  Routing the envelope msg pulse-A with the two wave elements
(frequency 50, intensity 40) and (frequency 60, intensity 70) through
`handle_socket_message` from the empty session state yields the depth-4 deque
sample-display-sample-display; the tick then pops 4 entries and evaluates
`p[0]` over them, which on the bare int 40 raises `TypeError` (the `none`
outcome) instead of flushing an averaged frame, and the raise kills the
`process_wave_queues` task. -/
theorem process_wave_tick_mixed_queue_raises :
    (handle_socket_message ⟨⟨0, 0, 100, 100⟩, [], []⟩
        (Envelope.msgPulse true [(50, 40), (60, 70)])).queueA =
      [WaveItem.sample 5 15 26, WaveItem.display 40,
       WaveItem.sample 6 10 30, WaveItem.display 70] ∧
    4 ≤ (handle_socket_message ⟨⟨0, 0, 100, 100⟩, [], []⟩
        (Envelope.msgPulse true [(50, 40), (60, 70)])).queueA.length ∧
    process_wave_tick (handle_socket_message ⟨⟨0, 0, 100, 100⟩, [], []⟩
        (Envelope.msgPulse true [(50, 40), (60, 70)])).queueA = none := by decide

end V103R
